import Mathlib

/-!
Verification of the reference-resolution logic of the all-goblins-have-names
module (src/scripts/index.js), shallowly embedded in Lean.

The file table-utils.js (exporting isWorldTable, isCompendiumTable and
rollTable) is not part of the sources; those three definitions are modelled
from the specification and are marked as such in their doc comments.
Everything else is translated directly from src/scripts/index.js.
-/

/-! ## JavaScript string primitives -/

/-- JavaScript String.prototype.indexOf for a single character needle:
index of the first occurrence, or -1 when absent. -/
def jsIndexOf (s : String) (c : Char) : Int :=
  match s.toList.findIdx? (fun x => x == c) with
  | some i => (i : Int)
  | none => -1

/-- JavaScript String.prototype.substring: negative arguments are clamped to 0,
arguments above the length are clamped to the length, and the two arguments
are swapped when start exceeds stop. -/
def jsSubstring (s : String) (start stop : Int) : String :=
  let n : Int := (s.toList.length : Int)
  let a : Int := min (max start 0) n
  let b : Int := min (max stop 0) n
  String.mk (((s.toList.drop (min a b).toNat)).take ((max a b).toNat - (min a b).toNat))

/-- Splitting a character list on the dot character, with the semantics of
JavaScript String.prototype.split with separator "." (an empty input yields
one empty part, separators at the ends yield empty parts). -/
def splitOnDot : List Char → List (List Char)
  | [] => [[]]
  | c :: rest =>
    if c == '.' then [] :: splitOnDot rest
    else match splitOnDot rest with
      | [] => [[c]]
      | h :: t => (c :: h) :: t

/-- JavaScript split(".") lifted to String. -/
def jsSplitDot (s : String) : List String :=
  (splitOnDot s.toList).map String.mk

/-- Whitespace test used by trim. -/
def isJsSpace (c : Char) : Bool :=
  c == ' ' || c == '\t' || c == '\n' || c == '\r'

/-- JavaScript String.prototype.trim: drop whitespace from both ends. -/
def jsTrim (s : String) : String :=
  String.mk (((s.toList.dropWhile isJsSpace).reverse.dropWhile isJsSpace).reverse)

/-! ## Data model -/

/-- A roll table in the world registry (game.tables.contents); the code only
reads its identifier field. -/
structure Table where
  _id : String
deriving DecidableEq

/-- A compendium pack (game.packs entry); getDocument fetches a document by
its id, yielding nothing when absent. -/
structure Pack where
  docs : List (String × Table)
deriving DecidableEq

/-- The biography box of the D&D 5e schema (details.biography.value). -/
structure BioBox where
  value : Option String
deriving DecidableEq

/-- The details object of the D&D 5e schema. -/
structure Details where
  biography : Option BioBox
deriving DecidableEq

/-- The system data of an actor: a flat biography field (simple worldbuilding
schema) or a nested details.biography.value field (D&D 5e schema). -/
structure ActorSystem where
  biography : Option String
  details : Option Details
deriving DecidableEq

/-- An actor record (game.actors entry). -/
structure Actor where
  system : ActorSystem
deriving DecidableEq

/-- The ambient host state the module reads: the world table registry, the
pack registry, the actor registry, the roll primitive, the markup stripper
and the sync-actor-name setting. -/
structure Env where
  tables : List Table
  packs : List (String × Pack)
  actors : List (String × Actor)
  roll : Table → List String
  stripMarkup : String → String
  syncActorName : Bool

/-- A JavaScript value as it flows through the resolver: a string
(pass-through input), an array of roll results, or undefined. -/
inductive JSValue where
  | str (s : String)
  | arr (entries : List String)
  | undef
deriving DecidableEq

/-- The errors thrown by the code, one constructor per throw site, plus the
TypeError raised by dereferencing undefined. -/
inductive JSError where
  | badFormat (displayName : String)
  | packNotFound (packId : String)
  | tableNotFoundInPack (tableId packId : String)
  | emptyRoll (tableId packId : String)
  | typeError (prop : String)
deriving DecidableEq

/-- The message carried by each thrown Error, exactly as built in the source
(the TypeError text abbreviates the engine message for reading a property of
undefined). -/
def JSError.message : JSError → String
  | JSError.badFormat d =>
      "Expected format to match @UUID[Compendium.module.table.Rolltable.id] Got: " ++ d
  | JSError.packNotFound p => "Couldn\x27t find a compendium with id " ++ p
  | JSError.tableNotFoundInPack t p =>
      "Couldn\x27t find table with id " ++ t ++ " in pack " ++ p
  | JSError.emptyRoll t p => "Couldn\x27t roll table id " ++ t ++ " in pack " ++ p
  | JSError.typeError prop =>
      "Cannot read properties of undefined (reading " ++ prop ++ ")"

/-- JavaScript truthiness of an optional string: undefined and the empty
string are falsy. -/
def truthyStr : Option String → Bool
  | none => false
  | some s => !(s == "")

/-- JavaScript truthiness of a JSValue: arrays are always truthy, the empty
string and undefined are falsy. -/
def JSValue.truthy : JSValue → Bool
  | JSValue.str s => !(s == "")
  | JSValue.arr _ => true
  | JSValue.undef => false

/-- JavaScript truthiness of an optional JSValue. -/
def truthyVal : Option JSValue → Bool
  | none => false
  | some v => v.truthy

/-! ## Reference classifiers and roll primitive (modelled from the spec) -/

/-- Modelled from the spec: isWorldTable lives in the absent file
table-utils.js; per the spec a local reference carries a fixed 16 character
marker prefix (visible in the source comments as the UUID RollTable marker)
and is terminated by a closing bracket. -/
def isWorldTable (s : String) : Bool :=
  (s.toList.take 16 == "@UUID[RollTable.".toList) && s.toList.contains ']'

/-- Modelled from the spec: isCompendiumTable lives in the absent file
table-utils.js; per the spec a packaged reference carries a fixed marker
prefix (visible in the source comments as the UUID Compendium marker) and is
terminated by a closing bracket. -/
def isCompendiumTable (s : String) : Bool :=
  (s.toList.take 17 == "@UUID[Compendium.".toList) && s.toList.contains ']'

/-- Modelled from the spec: rollTable lives in the absent file
table-utils.js; per the spec the host roll primitive produces an ordered,
possibly empty sequence of result entries for a table. -/
def rollTable (env : Env) (t : Table) : List String :=
  env.roll t

/-! ## Table resolver (getRollTableResult, getCompendiumTableResult,
rollFromTableString) -/

/-- The local identifier parsed out of a world reference:
displayName.substring(16, displayName.indexOf("]")). -/
def worldTableId (displayName : String) : String :=
  jsSubstring displayName 16 (jsIndexOf displayName ']')

/-- getRollTableResult: find the table whose _id equals the parsed
identifier; roll it when found, otherwise notify the user and yield
undefined.  Returns the value together with the notifications emitted. -/
def getRollTableResult (env : Env) (displayName : String) : JSValue × List String :=
  match env.tables.find? (fun t => t._id == worldTableId displayName) with
  | some table => (JSValue.arr (rollTable env table), [])
  | none => (JSValue.undef, ["Can\x27t find a table that matches " ++ displayName])

/-- The dot-separated parts of a packaged reference:
displayName.substring(6, displayName.indexOf("]")).split("."). -/
def compendiumIdParts (displayName : String) : List String :=
  jsSplitDot (jsSubstring displayName 6 (jsIndexOf displayName ']'))

/-- The pack coordinate idParts[1] ++ "." ++ idParts[2]. -/
def compendiumPackId (idParts : List String) : String :=
  idParts.getD 1 "" ++ "." ++ idParts.getD 2 ""

/-- The resource identifier idParts[4]. -/
def compendiumResourceId (idParts : List String) : String :=
  idParts.getD 4 ""

/-- getCompendiumTableResult: check the 5-part format, look up the pack,
fetch the document, roll it and reject an empty roll (an array is always
truthy in JavaScript, so the guard on the results reduces to the length
check). -/
def getCompendiumTableResult (env : Env) (displayName : String) :
    Except JSError (List String) :=
  if (compendiumIdParts displayName).length ≠ 5 then
    Except.error (JSError.badFormat displayName)
  else
    match List.lookup (compendiumPackId (compendiumIdParts displayName)) env.packs with
    | none => Except.error (JSError.packNotFound (compendiumPackId (compendiumIdParts displayName)))
    | some pack =>
      match List.lookup (compendiumResourceId (compendiumIdParts displayName)) pack.docs with
      | none =>
          Except.error (JSError.tableNotFoundInPack
            (compendiumResourceId (compendiumIdParts displayName))
            (compendiumPackId (compendiumIdParts displayName)))
      | some table =>
        if (rollTable env table).isEmpty then
          Except.error (JSError.emptyRoll
            (compendiumResourceId (compendiumIdParts displayName))
            (compendiumPackId (compendiumIdParts displayName)))
        else
          Except.ok (rollTable env table)

/-- AllGoblinsHaveNames.rollFromTableString: pass a non-reference through
unchanged, dispatch a world reference to getRollTableResult and a packaged
reference to getCompendiumTableResult.  The first component is the returned
value or the thrown error, the second the notifications emitted. -/
def rollFromTableString (env : Env) (tableStr : String) :
    Except JSError JSValue × List String :=
  if !isWorldTable tableStr && !isCompendiumTable tableStr then
    (Except.ok (JSValue.str tableStr), [])
  else if isWorldTable tableStr then
    (Except.ok (getRollTableResult env tableStr).1, (getRollTableResult env tableStr).2)
  else
    match getCompendiumTableResult env tableStr with
    | Except.ok l => (Except.ok (JSValue.arr l), [])
    | Except.error e => (Except.error e, [])

/-! ## Text miner (mineForTableStrings) -/

/-- The token record fields read by the miner: the display name, the actor
link flag, the actor id and the id of the token document itself. -/
structure TokenData where
  name : String
  actorId : Option String
  actorLink : Bool
  docId : String
deriving DecidableEq

/-- The mining result { nameTableStr, bioDataPath, bioTableStr }. -/
structure MiningResult where
  nameTableStr : Option String
  bioDataPath : Option String
  bioTableStr : Option String
deriving DecidableEq

/-- The actor id used by the miner: tokenData.actorId falling back to
tokenData.document.id when falsy. -/
def minedActorId (t : TokenData) : String :=
  match t.actorId with
  | some s => if s == "" then t.docId else s
  | none => t.docId

/-- The name reference mined from the trimmed display name: recorded only
when one of the two classifiers accepts it. -/
def mineNameStr (t : TokenData) : Option String :=
  if isWorldTable (jsTrim t.name) || isCompendiumTable (jsTrim t.name) then
    some (jsTrim t.name)
  else none

/-- The biography text and the recorded data path: the flat field
actorData.biography is tried first (recording "data.biography"), then the
nested actorData.details.biography.value (recording
"system.details.biography.value"), where actorData is actor.system. -/
def mineBio (actor : Actor) : Option String × Option String :=
  if truthyStr actor.system.biography then
    (actor.system.biography, some "data.biography")
  else if truthyStr ((actor.system.details.bind fun d => d.biography).bind fun bb => bb.value) then
    ((actor.system.details.bind fun d => d.biography).bind fun bb => bb.value,
      some "system.details.biography.value")
  else (none, none)

/-- JavaScript string coercion used when the mined biography is assigned to
innerHTML: undefined becomes the text "undefined". -/
def jsStringCoerce : Option String → String
  | some s => s
  | none => "undefined"

/-- The bio reference mined from the biography: strip markup through the
scratch element, trim, and record the text only when a classifier accepts
it. -/
def mineBioTableStr (env : Env) (actor : Actor) : Option String :=
  if isWorldTable (jsTrim (env.stripMarkup (jsStringCoerce (mineBio actor).1))) ||
      isCompendiumTable (jsTrim (env.stripMarkup (jsStringCoerce (mineBio actor).1))) then
    some (jsTrim (env.stripMarkup (jsStringCoerce (mineBio actor).1)))
  else none

/-- mineForTableStrings: classify the trimmed display name, and for a
non-linked token with a truthy actor id dereference the actor from the
registry (throwing the TypeError of reading system on undefined when the
actor is absent) and mine its biography. -/
def mineForTableStrings (env : Env) (t : TokenData) : Except JSError MiningResult :=
  if !t.actorLink && !(minedActorId t == "") then
    match List.lookup (minedActorId t) env.actors with
    | none => Except.error (JSError.typeError "system")
    | some actor =>
      Except.ok
        { nameTableStr := mineNameStr t
        , bioDataPath := (mineBio actor).2
        , bioTableStr := mineBioTableStr env actor }
  else
    Except.ok { nameTableStr := mineNameStr t, bioDataPath := none, bioTableStr := none }

/-- The access path, from the actor object, of the field the flat branch of
mineForTableStrings reads: actorData is actor.system and the branch reads
actorData.biography, so the location read is actor.system.biography. -/
def flatBioSourcePath : List String := ["system", "biography"]

/-- The access path, from the actor object, of the field the nested branch
of mineForTableStrings reads: actor.system.details.biography.value. -/
def nestedBioSourcePath : List String := ["system", "details", "biography", "value"]

/-! ## Orchestrator (getNewRolledValues, saveRolledValues, createToken) -/

/-- The resolved values record { bioDataPath, name?, bio? }. -/
structure RolledValues where
  bioDataPath : Option String
  name : Option JSValue
  bio : Option JSValue
deriving DecidableEq

/-- getNewRolledValues: resolve the name reference then the bio reference
inside one try block; a throw from either resolution is caught, logged as a
single warning prefixed with the module name, and makes the whole call
yield undefined instead of a record.  Returns the record (or undefined),
the warnings logged and the notifications emitted. -/
def getNewRolledValues (env : Env) (m : MiningResult) :
    Option RolledValues × List String × List String :=
  if truthyStr m.nameTableStr then
    match rollFromTableString env (m.nameTableStr.getD "") with
    | (Except.error e, notifs1) =>
        (none, ["[All Goblins Have Names]: " ++ e.message], notifs1)
    | (Except.ok v, notifs1) =>
      if truthyStr m.bioTableStr then
        match rollFromTableString env (m.bioTableStr.getD "") with
        | (Except.error e, notifs2) =>
            (none, ["[All Goblins Have Names]: " ++ e.message], notifs1 ++ notifs2)
        | (Except.ok w, notifs2) =>
            (some { bioDataPath := m.bioDataPath, name := some v, bio := some w },
             [], notifs1 ++ notifs2)
      else
        (some { bioDataPath := m.bioDataPath, name := some v, bio := none }, [], notifs1)
  else
    if truthyStr m.bioTableStr then
      match rollFromTableString env (m.bioTableStr.getD "") with
      | (Except.error e, notifs2) =>
          (none, ["[All Goblins Have Names]: " ++ e.message], notifs2)
      | (Except.ok w, notifs2) =>
          (some { bioDataPath := m.bioDataPath, name := none, bio := some w }, [], notifs2)
    else
      (some { bioDataPath := m.bioDataPath, name := none, bio := none }, [], [])

/-- A document update issued during write-back: the token name update, the
actor update at the recorded bio data path, or the actor name update. -/
inductive UpdateOp where
  | tokenUpdate (name : Option JSValue)
  | actorUpdate (path : Option String) (value : Option JSValue)
  | actorUpdateName (name : Option JSValue)
deriving DecidableEq

/-- saveRolledValues: reading result.name of an undefined result throws a
TypeError; otherwise the token name is updated unconditionally, the actor
is updated at the recorded path when the bio value is truthy, and the actor
name is updated when the sync setting is on and the name value is truthy. -/
def saveRolledValues (env : Env) (result : Option RolledValues) :
    Except JSError (List UpdateOp) :=
  match result with
  | none => Except.error (JSError.typeError "name")
  | some r =>
    Except.ok ([UpdateOp.tokenUpdate r.name] ++
      (if truthyVal r.bio then [UpdateOp.actorUpdate r.bioDataPath r.bio] else []) ++
      (if env.syncActorName && truthyVal r.name then [UpdateOp.actorUpdateName r.name] else []))

/-- What one run of the createToken hook performed: whether the placeholder
blanking of the token name happened, the updates written, the warnings
logged and the notifications emitted. -/
structure HandlerTrace where
  placeholderSet : Bool
  updates : List UpdateOp
  warnings : List String
  notifications : List String
deriving DecidableEq

/-- The createToken hook handler: mine the token, bail when neither
reference was found, blank the name, resolve and write back.  The second
component is the error that escaped the handler, if any; the handler has no
try/catch of its own, so a throw from mining or saving aborts it. -/
def createTokenHandler (env : Env) (t : TokenData) : HandlerTrace × Option JSError :=
  match mineForTableStrings env t with
  | Except.error e =>
      ({ placeholderSet := false, updates := [], warnings := [], notifications := [] }, some e)
  | Except.ok toRoll =>
    if !(truthyStr toRoll.nameTableStr) && !(truthyStr toRoll.bioTableStr) then
      ({ placeholderSet := false, updates := [], warnings := [], notifications := [] }, none)
    else
      match getNewRolledValues env toRoll with
      | (result, w, nf) =>
        match saveRolledValues env result with
        | Except.error e =>
            ({ placeholderSet := true, updates := [], warnings := w, notifications := nf }, some e)
        | Except.ok ops =>
            ({ placeholderSet := true, updates := ops, warnings := w, notifications := nf }, none)

/-! ## Concrete host environments and tokens used to instantiate claims -/

/-- A minimal host environment used to instantiate C1. -/
def envC1 : Env :=
  { tables := [], packs := [], actors := [], roll := fun _ => [],
    stripMarkup := fun s => s, syncActorName := false }

/-- A host environment whose roll primitive yields an empty sequence, with a
world table T1 registered; used for C2. -/
def envC2 : Env :=
  { tables := [⟨"T1"⟩], packs := [], actors := [], roll := fun _ => [],
    stripMarkup := fun s => s, syncActorName := false }

/-- A minimal host environment used to instantiate C3. -/
def envC3 : Env :=
  { tables := [], packs := [], actors := [], roll := fun _ => [],
    stripMarkup := fun s => s, syncActorName := false }

/-- A minimal host environment used to instantiate C4. -/
def envC4 : Env :=
  { tables := [], packs := [], actors := [], roll := fun _ => [],
    stripMarkup := fun s => s, syncActorName := false }

/-- A minimal host environment used to instantiate C5. -/
def envC5 : Env :=
  { tables := [], packs := [], actors := [], roll := fun _ => [],
    stripMarkup := fun s => s, syncActorName := false }

/-- A host environment for C6: table T1 rolls to Grix, and actor A1 carries
a malformed packaged reference in its flat biography field. -/
def envC6 : Env :=
  { tables := [⟨"T1"⟩], packs := [], actors :=
      [("A1", { system := { biography := some "@UUID[Compendium.a.b]", details := none } })],
    roll := fun _ => ["Grix"], stripMarkup := fun s => s, syncActorName := false }

/-- The C6 token: world-reference name, non-linked, pointing at actor A1. -/
def tC6 : TokenData :=
  { name := "@UUID[RollTable.T1]", actorId := some "A1", actorLink := false, docId := "D1" }

/-- The C6 mining result: both a name reference and a bio reference. -/
def mC6 : MiningResult :=
  { nameTableStr := some "@UUID[RollTable.T1]", bioDataPath := some "data.biography",
    bioTableStr := some "@UUID[Compendium.a.b]" }

/-- A host environment for C7 whose actor A1 has a biography that is itself
a valid world reference. -/
def envC7 : Env :=
  { tables := [], packs := [], actors :=
      [("A1", { system := { biography := some "@UUID[RollTable.T1]", details := none } })],
    roll := fun _ => [], stripMarkup := fun s => s, syncActorName := false }

/-- The C7 token: identity-linked to actor A1. -/
def tC7 : TokenData :=
  { name := "Goblin", actorId := some "A1", actorLink := true, docId := "D1" }

/-- A host environment for C8 whose actor A1 has only the flat biography
field, holding a valid world reference. -/
def envC8a : Env :=
  { tables := [], packs := [], actors :=
      [("A1", { system := { biography := some "@UUID[RollTable.T9]", details := none } })],
    roll := fun _ => [], stripMarkup := fun s => s, syncActorName := false }

/-- A host environment for C8 whose actor A1 has only the nested
details.biography.value field, holding a valid world reference. -/
def envC8b : Env :=
  { tables := [], packs := [], actors :=
      [("A1", { system := { biography := none, details := some { biography := some { value := some "@UUID[RollTable.T9]" } } } })],
    roll := fun _ => [], stripMarkup := fun s => s, syncActorName := false }

/-- A host environment for C8 whose actor A1 has both biography fields set;
the flat one holds a world reference, the nested one different text. -/
def envC8c : Env :=
  { tables := [], packs := [], actors :=
      [("A1", { system := { biography := some "@UUID[RollTable.T9]", details := some { biography := some { value := some "nested" } } } })],
    roll := fun _ => [], stripMarkup := fun s => s, syncActorName := false }

/-- The C8 token: plain name, non-linked, pointing at actor A1. -/
def tC8 : TokenData :=
  { name := "Plain", actorId := some "A1", actorLink := false, docId := "D1" }

/-- A host environment for C10 with an empty actor registry. -/
def envC10 : Env :=
  { tables := [], packs := [], actors := [], roll := fun _ => [],
    stripMarkup := fun s => s, syncActorName := false }

/-- The C10 token: non-linked, carrying an actor id absent from the
registry. -/
def tC10 : TokenData :=
  { name := "X", actorId := some "A9", actorLink := false, docId := "D1" }

/-! ## Classifier exclusivity -/

theorem isCompendiumTable_eq_false_of_isWorldTable (s : String)
    (h : isWorldTable s = true) : isCompendiumTable s = false := by
  have h1 : s.toList.take 16 = "@UUID[RollTable.".toList := by
    have hx := ((Bool.and_eq_true _ _).mp h).1
    exact eq_of_beq hx
  cases hc : isCompendiumTable s with
  | false => rfl
  | true =>
    have h2 : s.toList.take 17 = "@UUID[Compendium.".toList := by
      have hx := ((Bool.and_eq_true _ _).mp hc).1
      exact eq_of_beq hx
    have e1 : ("@UUID[Compendium.".toList).take 16 = s.toList.take 16 := by
      rw [← h2, List.take_take]
      norm_num
    have e2 : ("@UUID[Compendium.".toList).take 16 = "@UUID[RollTable.".toList :=
      e1.trans h1
    exact absurd e2 (by decide)

theorem isWorldTable_eq_false_of_isCompendiumTable (s : String)
    (h : isCompendiumTable s = true) : isWorldTable s = false := by
  cases hw : isWorldTable s with
  | false => rfl
  | true => rw [isCompendiumTable_eq_false_of_isWorldTable s hw] at h; exact absurd h (by decide)

/-! ## Claim C1 -/

/-- C1: a string classified neither as a world table reference nor as a
compendium table reference is returned unchanged by rollFromTableString,
with no error thrown and no notification emitted. -/
theorem rollFromTableString_passthrough (env : Env) (s : String)
    (h1 : isWorldTable s = false) (h2 : isCompendiumTable s = false) :
    rollFromTableString env s = (Except.ok (JSValue.str s), []) := by
  simp [rollFromTableString, h1, h2]

theorem rollFromTableString_passthrough_witness :
    isWorldTable "hello" = false ∧ isCompendiumTable "hello" = false ∧
    rollFromTableString envC1 "hello" = (Except.ok (JSValue.str "hello"), []) :=
  ⟨by decide, by decide,
    rollFromTableString_passthrough envC1 "hello" (by decide) (by decide)⟩

/-! ## Claim C2 -/

/-- Any successful value of getCompendiumTableResult is a non-empty list. -/
theorem getCompendiumTableResult_ok_ne_nil (env : Env) (s : String) (l : List String)
    (h : getCompendiumTableResult env s = Except.ok l) : l ≠ [] := by
  intro hnil
  subst hnil
  unfold getCompendiumTableResult at h
  split at h
  · simp at h
  · split at h
    · simp at h
    · split at h
      · simp at h
      · split at h
        · simp at h
        · simp_all

/-- C2 counterexample: for the world reference below the table is found, the
roll primitive yields the empty sequence, and rollFromTableString returns
that empty sequence as a success, with no thrown error and no
notification. -/
theorem rollFromTableString_empty_local_success :
    isWorldTable "@UUID[RollTable.T1]" = true ∧
    rollFromTableString envC2 "@UUID[RollTable.T1]" = (Except.ok (JSValue.arr []), []) :=
  ⟨by decide, rfl⟩

/-- C2 amended: for a reference string, resolution either succeeds with a
non-empty sequence, or fails with a thrown error, or reports exactly one
notification naming the input and yields absence, or (world path only, when
the table is found) returns the roll primitive output unchecked, which may
be empty. -/
theorem rollFromTableString_resolution_outcomes (env : Env) (s : String)
    (h : isWorldTable s = true ∨ isCompendiumTable s = true) :
    (∃ l, l ≠ [] ∧ rollFromTableString env s = (Except.ok (JSValue.arr l), [])) ∨
    (∃ e, rollFromTableString env s = (Except.error e, [])) ∨
    rollFromTableString env s =
      (Except.ok JSValue.undef, ["Can\x27t find a table that matches " ++ s]) ∨
    (∃ t, env.tables.find? (fun tb => tb._id == worldTableId s) = some t ∧
      rollFromTableString env s = (Except.ok (JSValue.arr (rollTable env t)), [])) := by
  rcases h with hw | hc
  · have hcf := isCompendiumTable_eq_false_of_isWorldTable s hw
    rcases hf : env.tables.find? (fun tb => tb._id == worldTableId s) with _ | t
    · right; right; left
      simp [rollFromTableString, hw, hcf, getRollTableResult, hf]
    · right; right; right
      exact ⟨t, hf, by simp [rollFromTableString, hw, hcf, getRollTableResult, hf]⟩
  · have hwf := isWorldTable_eq_false_of_isCompendiumTable s hc
    rcases hg : getCompendiumTableResult env s with e | l
    · right; left
      exact ⟨e, by simp [rollFromTableString, hwf, hc, hg]⟩
    · left
      exact ⟨l, getCompendiumTableResult_ok_ne_nil env s l hg,
        by simp [rollFromTableString, hwf, hc, hg]⟩

theorem rollFromTableString_resolution_outcomes_witness :
    (isWorldTable "@UUID[RollTable.T1]" = true ∨
      isCompendiumTable "@UUID[RollTable.T1]" = true) ∧
    ((∃ l, l ≠ [] ∧ rollFromTableString envC2 "@UUID[RollTable.T1]" =
        (Except.ok (JSValue.arr l), [])) ∨
     (∃ e, rollFromTableString envC2 "@UUID[RollTable.T1]" = (Except.error e, [])) ∨
     rollFromTableString envC2 "@UUID[RollTable.T1]" =
       (Except.ok JSValue.undef,
        ["Can\x27t find a table that matches " ++ "@UUID[RollTable.T1]"]) ∨
     (∃ t, envC2.tables.find? (fun tb => tb._id == worldTableId "@UUID[RollTable.T1]") = some t ∧
       rollFromTableString envC2 "@UUID[RollTable.T1]" =
         (Except.ok (JSValue.arr (rollTable envC2 t)), []))) :=
  ⟨Or.inl (by decide),
    rollFromTableString_resolution_outcomes envC2 "@UUID[RollTable.T1]" (Or.inl (by decide))⟩

/-! ## Claim C3 -/

/-- C3: for a packaged reference, the substring between the 6 character
prefix and the first closing bracket is split on dots; a part count other
than 5 throws the format error carrying the original input, and with exactly
5 parts no format error is ever thrown. -/
theorem getCompendiumTableResult_format_check (env : Env) (s : String)
    (h : isCompendiumTable s = true) :
    ((compendiumIdParts s).length ≠ 5 →
      getCompendiumTableResult env s = Except.error (JSError.badFormat s) ∧
      ∃ pre, (JSError.badFormat s).message = pre ++ s) ∧
    ((compendiumIdParts s).length = 5 →
      ∀ x, getCompendiumTableResult env s ≠ Except.error (JSError.badFormat x)) := by
  constructor
  · intro hlen
    constructor
    · unfold getCompendiumTableResult
      rw [if_pos hlen]
    · exact ⟨"Expected format to match @UUID[Compendium.module.table.Rolltable.id] Got: ", rfl⟩
  · intro h5 x
    unfold getCompendiumTableResult
    rcases hp : List.lookup (compendiumPackId (compendiumIdParts s)) env.packs with _ | pack
    · simp [h5, hp]
    · rcases hd : List.lookup (compendiumResourceId (compendiumIdParts s)) pack.docs with _ | table
      · simp [h5, hp, hd]
      · by_cases he : (rollTable env table).isEmpty
        · simp [h5, hp, hd, he]
        · simp [h5, hp, hd, he]

theorem getCompendiumTableResult_format_check_witness :
    isCompendiumTable "@UUID[Compendium.a.b]" = true ∧
    (((compendiumIdParts "@UUID[Compendium.a.b]").length ≠ 5 →
      getCompendiumTableResult envC3 "@UUID[Compendium.a.b]" =
        Except.error (JSError.badFormat "@UUID[Compendium.a.b]") ∧
      ∃ pre, (JSError.badFormat "@UUID[Compendium.a.b]").message =
        pre ++ "@UUID[Compendium.a.b]") ∧
     ((compendiumIdParts "@UUID[Compendium.a.b]").length = 5 →
      ∀ x, getCompendiumTableResult envC3 "@UUID[Compendium.a.b]" ≠
        Except.error (JSError.badFormat x))) :=
  ⟨by decide, getCompendiumTableResult_format_check envC3 "@UUID[Compendium.a.b]" (by decide)⟩

/-! ## Claim C4 -/

/-- C4: for a well-formed packaged reference (5 coordinate parts), a missing
pack throws an error naming the pack coordinate, and a pack whose document
fetch yields nothing throws an error naming both the resource id and the
pack coordinate. -/
theorem getCompendiumTableResult_lookup_errors (env : Env) (s : String)
    (h : isCompendiumTable s = true)
    (h5 : (compendiumIdParts s).length = 5) :
    (List.lookup (compendiumPackId (compendiumIdParts s)) env.packs = none →
      getCompendiumTableResult env s =
        Except.error (JSError.packNotFound (compendiumPackId (compendiumIdParts s))) ∧
      ∃ pre, (JSError.packNotFound (compendiumPackId (compendiumIdParts s))).message =
        pre ++ compendiumPackId (compendiumIdParts s)) ∧
    (∀ pack, List.lookup (compendiumPackId (compendiumIdParts s)) env.packs = some pack →
      List.lookup (compendiumResourceId (compendiumIdParts s)) pack.docs = none →
      getCompendiumTableResult env s =
        Except.error (JSError.tableNotFoundInPack (compendiumResourceId (compendiumIdParts s))
          (compendiumPackId (compendiumIdParts s))) ∧
      ∃ a b, (JSError.tableNotFoundInPack (compendiumResourceId (compendiumIdParts s))
          (compendiumPackId (compendiumIdParts s))).message =
        a ++ compendiumResourceId (compendiumIdParts s) ++ b ++
          compendiumPackId (compendiumIdParts s)) := by
  constructor
  · intro hp
    constructor
    · simp [getCompendiumTableResult, h5, hp]
    · exact ⟨"Couldn\x27t find a compendium with id ", rfl⟩
  · intro pack hp hd
    constructor
    · simp [getCompendiumTableResult, h5, hp, hd]
    · exact ⟨"Couldn\x27t find table with id ", " in pack ", rfl⟩

theorem getCompendiumTableResult_lookup_errors_witness :
    isCompendiumTable "@UUID[Compendium.a.b.RollTable.ID1]" = true ∧
    (compendiumIdParts "@UUID[Compendium.a.b.RollTable.ID1]").length = 5 ∧
    ((List.lookup (compendiumPackId (compendiumIdParts "@UUID[Compendium.a.b.RollTable.ID1]"))
        envC4.packs = none →
      getCompendiumTableResult envC4 "@UUID[Compendium.a.b.RollTable.ID1]" =
        Except.error (JSError.packNotFound
          (compendiumPackId (compendiumIdParts "@UUID[Compendium.a.b.RollTable.ID1]"))) ∧
      ∃ pre, (JSError.packNotFound
          (compendiumPackId (compendiumIdParts "@UUID[Compendium.a.b.RollTable.ID1]"))).message =
        pre ++ compendiumPackId (compendiumIdParts "@UUID[Compendium.a.b.RollTable.ID1]")) ∧
     (∀ pack, List.lookup
        (compendiumPackId (compendiumIdParts "@UUID[Compendium.a.b.RollTable.ID1]"))
        envC4.packs = some pack →
      List.lookup (compendiumResourceId (compendiumIdParts "@UUID[Compendium.a.b.RollTable.ID1]"))
        pack.docs = none →
      getCompendiumTableResult envC4 "@UUID[Compendium.a.b.RollTable.ID1]" =
        Except.error (JSError.tableNotFoundInPack
          (compendiumResourceId (compendiumIdParts "@UUID[Compendium.a.b.RollTable.ID1]"))
          (compendiumPackId (compendiumIdParts "@UUID[Compendium.a.b.RollTable.ID1]"))) ∧
      ∃ a b, (JSError.tableNotFoundInPack
          (compendiumResourceId (compendiumIdParts "@UUID[Compendium.a.b.RollTable.ID1]"))
          (compendiumPackId (compendiumIdParts "@UUID[Compendium.a.b.RollTable.ID1]"))).message =
        a ++ compendiumResourceId (compendiumIdParts "@UUID[Compendium.a.b.RollTable.ID1]") ++ b ++
          compendiumPackId (compendiumIdParts "@UUID[Compendium.a.b.RollTable.ID1]"))) :=
  ⟨by decide, by decide,
    getCompendiumTableResult_lookup_errors envC4 "@UUID[Compendium.a.b.RollTable.ID1]"
      (by decide) (by decide)⟩

/-! ## Claim C5 -/

/-- C5: a world reference whose parsed identifier matches no registered
table makes resolution emit exactly one notification naming the reference,
return undefined (absence), and throw nothing. -/
theorem getRollTableResult_not_found_notifies (env : Env) (s : String)
    (h : isWorldTable s = true)
    (hfind : env.tables.find? (fun t => t._id == worldTableId s) = none) :
    rollFromTableString env s =
      (Except.ok JSValue.undef, ["Can\x27t find a table that matches " ++ s]) ∧
    ∃ pre, "Can\x27t find a table that matches " ++ s = pre ++ s := by
  have hcf := isCompendiumTable_eq_false_of_isWorldTable s h
  constructor
  · simp [rollFromTableString, h, hcf, getRollTableResult, hfind]
  · exact ⟨"Can\x27t find a table that matches ", rfl⟩

theorem getRollTableResult_not_found_notifies_witness :
    isWorldTable "@UUID[RollTable.ZZZ]" = true ∧
    envC5.tables.find? (fun t => t._id == worldTableId "@UUID[RollTable.ZZZ]") = none ∧
    (rollFromTableString envC5 "@UUID[RollTable.ZZZ]" =
      (Except.ok JSValue.undef,
       ["Can\x27t find a table that matches " ++ "@UUID[RollTable.ZZZ]"]) ∧
     ∃ pre, "Can\x27t find a table that matches " ++ "@UUID[RollTable.ZZZ]" =
       pre ++ "@UUID[RollTable.ZZZ]") :=
  ⟨by decide, by decide,
    getRollTableResult_not_found_notifies envC5 "@UUID[RollTable.ZZZ]" (by decide) (by decide)⟩

/-! ## Claim C6 -/

/-- C6 counterexample: the name reference resolves and the bio reference
throws, yet getNewRolledValues returns no record at all (undefined) instead
of a record carrying the resolved name value. -/
theorem getNewRolledValues_discards_record :
    rollFromTableString envC6 "@UUID[RollTable.T1]" =
      (Except.ok (JSValue.arr ["Grix"]), []) ∧
    rollFromTableString envC6 "@UUID[Compendium.a.b]" =
      (Except.error (JSError.badFormat "@UUID[Compendium.a.b]"), []) ∧
    getNewRolledValues envC6 mC6 =
      (none,
       ["[All Goblins Have Names]: " ++ (JSError.badFormat "@UUID[Compendium.a.b]").message],
       []) :=
  ⟨rfl, rfl, rfl⟩

/-- C6 amended: when the name reference resolves and the bio reference
throws, getNewRolledValues catches the throw and logs exactly one warning
prefixed with the module name, but returns undefined instead of a record,
discarding the resolved name value; the subsequent save step then throws
the TypeError of reading name on undefined, so the createToken handler
aborts with that error after the placeholder blanking and before any
write. -/
theorem getNewRolledValues_catch_behavior (env : Env) (m : MiningResult)
    (hn : truthyStr m.nameTableStr = true)
    (hb : truthyStr m.bioTableStr = true)
    (v : JSValue) (n1 : List String)
    (hname : rollFromTableString env (m.nameTableStr.getD "") = (Except.ok v, n1))
    (e : JSError) (n2 : List String)
    (hbio : rollFromTableString env (m.bioTableStr.getD "") = (Except.error e, n2)) :
    getNewRolledValues env m =
      (none, ["[All Goblins Have Names]: " ++ e.message], n1 ++ n2) ∧
    saveRolledValues env none = Except.error (JSError.typeError "name") ∧
    ∀ t, mineForTableStrings env t = Except.ok m →
      createTokenHandler env t =
        ({ placeholderSet := true, updates := [],
           warnings := ["[All Goblins Have Names]: " ++ e.message],
           notifications := n1 ++ n2 }, some (JSError.typeError "name")) := by
  have h1 : getNewRolledValues env m =
      (none, ["[All Goblins Have Names]: " ++ e.message], n1 ++ n2) := by
    simp [getNewRolledValues, hn, hb, hname, hbio]
  refine ⟨h1, rfl, ?_⟩
  intro t hm
  simp [createTokenHandler, hm, hn, h1, saveRolledValues]

theorem getNewRolledValues_catch_behavior_witness :
    truthyStr mC6.nameTableStr = true ∧
    truthyStr mC6.bioTableStr = true ∧
    rollFromTableString envC6 (mC6.nameTableStr.getD "") =
      (Except.ok (JSValue.arr ["Grix"]), []) ∧
    rollFromTableString envC6 (mC6.bioTableStr.getD "") =
      (Except.error (JSError.badFormat "@UUID[Compendium.a.b]"), []) ∧
    mineForTableStrings envC6 tC6 = Except.ok mC6 ∧
    (getNewRolledValues envC6 mC6 =
      (none, ["[All Goblins Have Names]: " ++
        (JSError.badFormat "@UUID[Compendium.a.b]").message], [] ++ []) ∧
     saveRolledValues envC6 none = Except.error (JSError.typeError "name") ∧
     ∀ t, mineForTableStrings envC6 t = Except.ok mC6 →
      createTokenHandler envC6 t =
        ({ placeholderSet := true, updates := [],
           warnings := ["[All Goblins Have Names]: " ++
             (JSError.badFormat "@UUID[Compendium.a.b]").message],
           notifications := [] ++ [] }, some (JSError.typeError "name"))) :=
  ⟨by decide, by decide, rfl, rfl, rfl,
    getNewRolledValues_catch_behavior envC6 mC6 (by decide) (by decide)
      (JSValue.arr ["Grix"]) [] rfl (JSError.badFormat "@UUID[Compendium.a.b]") [] rfl⟩

/-! ## Claim C7 -/

/-- C7: for an identity-linked token the miner skips the biography block
entirely: it cannot throw, the result carries no bio reference and no bio
data path, and the outcome is the same in every host environment (so no
actor biography is read), even when the linked actor biography holds a
valid reference string. -/
theorem mineForTableStrings_linked_skips_bio (t : TokenData)
    (h : t.actorLink = true) (env : Env) :
    mineForTableStrings env t =
      Except.ok { nameTableStr := mineNameStr t, bioDataPath := none, bioTableStr := none } := by
  simp [mineForTableStrings, h]

theorem mineForTableStrings_linked_skips_bio_witness :
    tC7.actorLink = true ∧
    List.lookup "A1" envC7.actors =
      some { system := { biography := some "@UUID[RollTable.T1]", details := none } } ∧
    isWorldTable "@UUID[RollTable.T1]" = true ∧
    mineForTableStrings envC7 tC7 =
      Except.ok { nameTableStr := mineNameStr tC7, bioDataPath := none, bioTableStr := none } :=
  ⟨rfl, rfl, by decide, mineForTableStrings_linked_skips_bio tC7 rfl envC7⟩

/-! ## Claim C8 -/

/-- C8: the flat branch reads the biography from actor.system.biography but
records the path "data.biography", which does not name that location (the
code writes "system."-prefixed paths for system data, as its own nested
branch shows); the nested branch records a path that does name the location
it reads; and when both fields are present the flat branch wins. -/
theorem mineForTableStrings_records_stale_flat_path :
    mineForTableStrings envC8a tC8 =
      Except.ok { nameTableStr := none, bioDataPath := some "data.biography",
                  bioTableStr := some "@UUID[RollTable.T9]" } ∧
    jsSplitDot "data.biography" ≠ flatBioSourcePath ∧
    mineForTableStrings envC8b tC8 =
      Except.ok { nameTableStr := none, bioDataPath := some "system.details.biography.value",
                  bioTableStr := some "@UUID[RollTable.T9]" } ∧
    jsSplitDot "system.details.biography.value" = nestedBioSourcePath ∧
    mineForTableStrings envC8c tC8 =
      Except.ok { nameTableStr := none, bioDataPath := some "data.biography",
                  bioTableStr := some "@UUID[RollTable.T9]" } :=
  ⟨rfl, by decide, rfl, by decide, rfl⟩

/-! ## Claim C9 -/

/-- C9: writing back a resolved-values record always updates the token name
(even when no name resolved), updates the actor at the recorded bio data
path exactly when a bio value resolved (is truthy), and updates the actor
name exactly when the sync setting is enabled and a name value resolved. -/
theorem saveRolledValues_write_policy (env : Env) (r : RolledValues) :
    ∃ ops, saveRolledValues env (some r) = Except.ok ops ∧
      UpdateOp.tokenUpdate r.name ∈ ops ∧
      (UpdateOp.actorUpdate r.bioDataPath r.bio ∈ ops ↔ truthyVal r.bio = true) ∧
      (UpdateOp.actorUpdateName r.name ∈ ops ↔
        (env.syncActorName = true ∧ truthyVal r.name = true)) := by
  refine ⟨_, rfl, ?_, ?_, ?_⟩ <;>
    by_cases hb : truthyVal r.bio <;>
      by_cases hs : env.syncActorName <;>
        by_cases hn : truthyVal r.name <;>
          simp [hb, hs, hn]

/-! ## Claim C10 -/

/-- C10: a non-linked token whose (fallback) actor id is truthy but absent
from the actor registry makes mineForTableStrings throw the TypeError of
dereferencing the absent actor, and since the createToken handler has no
try/catch around mining, the handler aborts with that error before the
placeholder blanking and before any write. -/
theorem mineForTableStrings_missing_actor_throws (env : Env) (t : TokenData)
    (h1 : t.actorLink = false)
    (h2 : (minedActorId t == "") = false)
    (h3 : List.lookup (minedActorId t) env.actors = none) :
    mineForTableStrings env t = Except.error (JSError.typeError "system") ∧
    createTokenHandler env t =
      ({ placeholderSet := false, updates := [], warnings := [], notifications := [] },
       some (JSError.typeError "system")) := by
  have hm : mineForTableStrings env t = Except.error (JSError.typeError "system") := by
    simp [mineForTableStrings, h1, h2, h3]
  exact ⟨hm, by simp [createTokenHandler, hm]⟩

theorem mineForTableStrings_missing_actor_throws_witness :
    tC10.actorLink = false ∧
    (minedActorId tC10 == "") = false ∧
    List.lookup (minedActorId tC10) envC10.actors = none ∧
    (mineForTableStrings envC10 tC10 = Except.error (JSError.typeError "system") ∧
     createTokenHandler envC10 tC10 =
      ({ placeholderSet := false, updates := [], warnings := [], notifications := [] },
       some (JSError.typeError "system"))) :=
  ⟨rfl, by decide, by decide,
    mineForTableStrings_missing_actor_throws envC10 tC10 rfl (by decide) (by decide)⟩
